import Mathlib

set_option allowUnsafeReducibility true
attribute [semireducible] Rat.mul Rat.inv Rat.add Rat.sub

/-!
Shallow embedding of the Assessment Engine of the API-Smart-Learning-Platform
repository: the quiz data model (`src/models/Quiz.js`), the grading engine
(`QuizSchema.methods.gradeAttempt`), the analytics recomputation
(`QuizSchema.methods.updateAnalytics`), the pre-save total-points hook
(`QuizSchema.pre('save')`), and the attempt-limit checks of the submit route
(`src/routes/quizzes.js`, `POST /quizzes/:id/submit`).

Modelling conventions:
* Mongo ObjectIds are `Nat`; two ids compare equal exactly when the JS
  `toString()` comparison would succeed.
* JS numbers that stay finite in every reachable state are `Rat`.  A JS
  number field that can hold `undefined` or become `NaN`/`Infinity` is
  `Option Rat`, with `none` standing for the non-finite / unset value;
  JS comparisons involving `NaN`/`undefined` are false, which the `jsGe`
  helper reproduces.
* `Math.round` rounds half toward positive infinity: `⌊x + 1/2⌋`.
* Fallible code (the `return null` path of `gradeAttempt`, and the
  `TypeError` a non-string fill-blank answer would raise on
  `.toLowerCase()`) is modelled with `Option`.
-/

namespace AssessEngine

/-- JS `Math.round`: rounds half toward +∞. -/
def jsRound (q : Rat) : Int := ⌊q + 1/2⌋

/-- JS `x || 0` on a number: `0` (and `NaN`, unrepresented here) are falsy. -/
def jsOrZero (q : Rat) : Rat := if q = 0 then 0 else q

/-- JS `s >= t` where `s` may be `NaN`/`undefined` (`none`): then false. -/
def jsGe (s : Option Rat) (t : Rat) : Bool :=
  match s with
  | some v => t ≤ v
  | none => false

/-- Question `type` enum of the embedded question schema. -/
inductive QType where
  | multiple_choice | single_choice | true_false | fill_blank
  | essay | code | matching | ordering
deriving DecidableEq, Repr

/-- One entry of a question's `options` list: `_id` and `isCorrect`
(the `text`/`explanation`/`order` fields are never read by grading). -/
structure QOption where
  oid : Nat
  isCorrect : Bool
deriving DecidableEq, Repr

/-- One pair of `correctAnswers.matching`. -/
structure MatchPair where
  left : String
  right : String
deriving DecidableEq, Repr

/-- One entry of `correctAnswers.ordering`. -/
structure OrderItem where
  item : String
  correctPosition : Int
deriving DecidableEq, Repr

/-- The `correctAnswers` sub-document of a question.  `trueFalse` has no
default in the schema, so it is optional. -/
structure CorrectAnswers where
  fillBlanks : List String := []
  trueFalse : Option Bool := none
  matching : List MatchPair := []
  ordering : List OrderItem := []
deriving DecidableEq, Repr

/-- The per-question `analytics` counters touched by grading. -/
structure QAnalytics where
  totalAttempts : Nat := 0
  correctAttempts : Nat := 0
deriving DecidableEq, Repr

/-- An embedded question document (fields read by the assessment engine). -/
structure Question where
  qid : Nat
  type : QType
  points : Rat := 1
  options : List QOption := []
  correctAnswers : CorrectAnswers := {}
  analytics : QAnalytics := {}
deriving DecidableEq, Repr

/-- The polymorphic submitted value of an answer
(`answer: mongoose.Schema.Types.Mixed`). -/
inductive AnswerValue where
  | ids (l : List Nat)
  | id (i : Nat)
  | text (s : String)
  | bool (b : Bool)
  | pairs (l : List MatchPair)
  | seq (l : List String)
deriving DecidableEq, Repr

/-- An answer record of an attempt.  `isCorrect` has no schema default,
so it starts `undefined` (`none`); `pointsEarned` defaults to `0`. -/
structure Answer where
  questionId : Nat
  answer : AnswerValue
  isCorrect : Option Bool := none
  pointsEarned : Rat := 0
deriving DecidableEq, Repr

/-- Attempt `status` enum. -/
inductive AttemptStatus where
  | in_progress | submitted | auto_submitted | abandoned
deriving DecidableEq, Repr

/-- An embedded attempt document (fields read by grading and analytics).
`score` has no default and becomes `NaN` when grading divides by a zero
`totalPoints`; both are `none`. -/
structure Attempt where
  aid : Nat
  userId : Nat
  answers : List Answer := []
  score : Option Rat := none
  totalPointsEarned : Rat := 0
  timeSpent : Rat := 0
  status : AttemptStatus := .in_progress
deriving DecidableEq, Repr

/-- Quiz `settings` fields read by the assessment engine.  `allowRetake`
appears only in the submit route, with no schema default. -/
structure Settings where
  maxAttempts : Nat := 3
  passingScore : Rat := 70
  allowRetake : Bool := false
deriving DecidableEq, Repr

/-- Quiz-level `analytics`.  `averageScore`/`highestScore`/`lowestScore`
and `abandonmentRate` can be assigned a `NaN` (from a `NaN` attempt score,
resp. from an empty attempt list), hence `Option Rat`. -/
structure QuizAnalytics where
  totalAttempts : Nat := 0
  averageScore : Option Rat := some 0
  highestScore : Option Rat := some 0
  lowestScore : Option Rat := some 0
  passRate : Rat := 0
  averageTime : Rat := 0
  abandonmentRate : Option Rat := some 0
deriving DecidableEq, Repr

/-- Quiz `status` enum. -/
inductive QuizStatus where
  | draft | published | archived | scheduled
deriving DecidableEq, Repr

/-- The quiz aggregate (fields of `QuizSchema` the claims touch). -/
structure Quiz where
  questions : List Question := []
  settings : Settings := {}
  totalPoints : Rat := 0
  attempts : List Attempt := []
  analytics : QuizAnalytics := {}
  status : QuizStatus := .draft
  publishedAt : Option Nat := none
deriving DecidableEq, Repr

/-- `this.questions.id(x)` / `this.attempts.id(x)`: find by `_id`. -/
def findQuestion (qs : List Question) (i : Nat) : Option Question :=
  qs.find? (fun q => q.qid = i)

/-- `Array.isArray(answer.answer) ? answer.answer : [answer.answer]`. -/
def toSelected : AnswerValue → List AnswerValue
  | .ids l => l.map AnswerValue.id
  | v => [v]

/-- `opt.toString()` of a selected value equals the `_id.toString()` of a
correct option exactly when the value is that option id. -/
def valMatchesId (v : AnswerValue) (i : Nat) : Bool :=
  match v with
  | .id j => j = i
  | _ => false

/-- The per-answer dispatch of `gradeAttempt`'s `switch (question.type)`.
Returns the updated answer; `none` models the `TypeError` a fill-blank
answer that is not a string raises on `.toLowerCase()`.  Matching and
ordering have no case in the switch, so the answer passes through
unchanged. -/
def gradeAnswer (question : Question) (answer : Answer) : Option Answer :=
  match question.type with
  | .multiple_choice | .single_choice =>
    let selectedOptions := toSelected answer.answer
    let correctOptions := (question.options.filter (fun opt => opt.isCorrect)).map
      (fun opt => opt.oid)
    let isCorrect := selectedOptions.length = correctOptions.length &&
      selectedOptions.all (fun opt => correctOptions.any (fun c => valMatchesId opt c))
    some { answer with isCorrect := some isCorrect,
                       pointsEarned := if isCorrect then question.points else 0 }
  | .true_false =>
    let isCorrect :=
      match answer.answer, question.correctAnswers.trueFalse with
      | .bool b, some k => b = k
      | _, _ => false
    some { answer with isCorrect := some isCorrect,
                       pointsEarned := if isCorrect then question.points else 0 }
  | .fill_blank =>
    match answer.answer with
    | .text s =>
      let userAnswer := s.toLower.trim
      let isCorrect := question.correctAnswers.fillBlanks.any
        (fun correct => correct.toLower.trim = userAnswer)
      some { answer with isCorrect := some isCorrect,
                         pointsEarned := if isCorrect then question.points else 0 }
    | _ => none
  | .essay | .code =>
    let pointsEarned := jsOrZero answer.pointsEarned
    some { answer with pointsEarned := pointsEarned,
                       isCorrect := some (question.points * (6/10) ≤ pointsEarned) }
  | .matching | .ordering => some answer

/-- `question.analytics.totalAttempts++` and the conditional
`correctAttempts++` (JS truthiness: an unset `isCorrect` counts as false). -/
def bumpAnalytics (isCorrect : Option Bool) (q : Question) : Question :=
  { q with analytics :=
      { q.analytics with
          totalAttempts := q.analytics.totalAttempts + 1,
          correctAttempts := q.analytics.correctAttempts +
            (if isCorrect.getD false then 1 else 0) } }

/-- In-place mutation of the subdocument `.id()` found (the first one with
the given `_id`). -/
def updateFirst (i : Nat) (f : Question → Question) : List Question → List Question
  | [] => []
  | q :: rest => if q.qid = i then f q :: rest else q :: updateFirst i f rest

/-- The body of `attempt.answers.forEach(...)`: threads the mutated
question list and the `totalPointsEarned` accumulator, and rebuilds the
answer list.  An answer whose `questionId` matches no question is skipped
(`if (!question) return;`) and left untouched. -/
def gradeFold (qs : List Question) (acc : Rat) :
    List Answer → Option (List Question × Rat × List Answer)
  | [] => some (qs, acc, [])
  | a :: rest =>
    match findQuestion qs a.questionId with
    | none =>
      (gradeFold qs acc rest).map (fun r => (r.1, r.2.1, a :: r.2.2))
    | some question =>
      match gradeAnswer question a with
      | none => none
      | some a' =>
        let qs' := updateFirst a.questionId (bumpAnalytics a'.isCorrect) qs
        (gradeFold qs' (acc + a'.pointsEarned) rest).map
          (fun r => (r.1, r.2.1, a' :: r.2.2))

/-- `scores.reduce((a, b) => a + b, 0)` over possibly-`NaN` scores. -/
def jsSum (l : List (Option Rat)) : Option Rat :=
  l.foldl (fun acc s =>
    match acc, s with
    | some a, some b => some (a + b)
    | _, _ => none) (some 0)

/-- `Math.max(...scores)` over a non-empty list (`NaN` poisons). -/
def jsMaxList : List (Option Rat) → Option Rat
  | [] => none
  | s :: rest => rest.foldl (fun acc t =>
      match acc, t with
      | some a, some b => some (max a b)
      | _, _ => none) s

/-- `Math.min(...scores)` over a non-empty list (`NaN` poisons). -/
def jsMinList : List (Option Rat) → Option Rat
  | [] => none
  | s :: rest => rest.foldl (fun acc t =>
      match acc, t with
      | some a, some b => some (min a b)
      | _, _ => none) s

/-- `QuizSchema.methods.updateAnalytics`.  Only attempts with status
exactly `'submitted'` enter the score statistics; the score block is
skipped when there are none, leaving those fields at their prior values.
`abandonmentRate` divides by the length of the whole attempt list. -/
def updateAnalytics (quiz : Quiz) : Quiz :=
  let submittedAttempts := quiz.attempts.filter (fun a => a.status = .submitted)
  let an := { quiz.analytics with totalAttempts := submittedAttempts.length }
  let an :=
    if 0 < submittedAttempts.length then
      let scores := submittedAttempts.map (fun a => a.score)
      let times := submittedAttempts.map (fun a => a.timeSpent / 60)
      { an with
          averageScore := (jsSum scores).map (fun s => s / (scores.length : Rat)),
          highestScore := jsMaxList scores,
          lowestScore := jsMinList scores,
          passRate :=
            (((scores.filter (fun s => jsGe s quiz.settings.passingScore)).length : Rat) /
              (scores.length : Rat)) * 100,
          averageTime := (times.foldl (fun a b => a + b) 0) / (times.length : Rat) }
    else an
  let abandonedAttempts := (quiz.attempts.filter (fun a => a.status = .abandoned)).length
  let an :=
    { an with abandonmentRate :=
        if quiz.attempts.length = 0 then none
        else some (((abandonedAttempts : Rat) / (quiz.attempts.length : Rat)) * 100) }
  { quiz with analytics := an }

/-- In-place mutation of the attempt `.id()` found. -/
def replaceAttempt (i : Nat) (att : Attempt) : List Attempt → List Attempt
  | [] => []
  | a :: rest => if a.aid = i then att :: rest else a :: replaceAttempt i att rest

/-- `QuizSchema.methods.gradeAttempt`.  `none` models the `return null`
of a missing attempt (and a grading `TypeError`).  The stored score is
`Math.round((totalPointsEarned / this.totalPoints) * 100)`, which is the
non-finite `NaN`/`Infinity` — modelled `none` — when `totalPoints = 0`.
There is no check of the attempt's current status. -/
def gradeAttempt (quiz : Quiz) (attemptId : Nat) : Option Quiz :=
  match quiz.attempts.find? (fun a => a.aid = attemptId) with
  | none => none
  | some attempt =>
    match gradeFold quiz.questions 0 attempt.answers with
    | none => none
    | some (qs', totalPointsEarned, answers') =>
      let score : Option Rat :=
        if quiz.totalPoints = 0 then none
        else some ((jsRound (totalPointsEarned / quiz.totalPoints * 100) : Int) : Rat)
      let attempt' := { attempt with
        answers := answers',
        totalPointsEarned := totalPointsEarned,
        score := score,
        status := .submitted }
      let quiz' := { quiz with
        questions := qs',
        attempts := replaceAttempt attemptId attempt' quiz.attempts }
      some (updateAnalytics quiz')

/-- `QuizSchema.pre('save')`: recomputes `totalPoints` from the question
list and stamps `publishedAt` once.  `statusModified` stands for
mongoose's `this.isModified('status')`; `now` for `new Date()`. -/
def preSave (statusModified : Bool) (now : Nat) (quiz : Quiz) : Quiz :=
  let q := { quiz with
    totalPoints := quiz.questions.foldl (fun total question => total + question.points) 0 }
  if statusModified ∧ q.status = .published ∧ q.publishedAt = none then
    { q with publishedAt := some now }
  else q

/-- The record shape the submit route's attempt-limit code expects an
entry of `quiz.submissions` to have (`userId` is the only field those
checks read).  No such entry can exist on a real document: the Quiz
schema defines no `submissions` path. -/
structure Submission where
  userId : Nat
deriving DecidableEq, Repr

/-- The property read `quiz.submissions` of `POST /quizzes/:id/submit`
(quizzes.js line 363), evaluated on a document of the Quiz model the
route loads.  The Quiz schema's embedded attempt store is `attempts`; it
defines no `submissions` path, so on every document this property is
`undefined`, modelled `none`. -/
def submissionsProp (_quiz : Quiz) : Option (List Submission) := none

/-- JS method call `x.filter(f)` where `x` may be `undefined` (`none`):
on `undefined` the member access throws a `TypeError` (`none`); on an
array it filters. -/
def jsFilter {α : Type} (x : Option (List α)) (f : α → Bool) : Option (List α) :=
  match x with
  | none => none
  | some l => some (l.filter f)

/-- The outcomes of the submit route's attempt-limit section. -/
inductive SubmitOutcome where
  /-- The `TypeError` thrown by `quiz.submissions.filter(...)` at
  quizzes.js line 363 when `submissions` is `undefined`. -/
  | typeError
  /-- 400 "Quiz can only be attempted once" (lines 367-372). -/
  | retakeRejected
  /-- 400 "Maximum attempts (...) reached" (lines 374-379). -/
  | maxAttemptsRejected
  /-- Fell through both checks: the request goes on to grade and push a
  new submission (lines 381-421). -/
  | stored
deriving DecidableEq, Repr

/-- The attempt-limit section of `POST /quizzes/:id/submit`
(quizzes.js lines 362-379) against a document of the actual Quiz model:
`userSubmissions` is `quiz.submissions.filter(...)`, a method call on the
undefined `submissions` property, so evaluation throws before the
`allowRetake` branch, the `maxAttempts` branch, grading, or the
`quiz.submissions.push` at line 420 can run. -/
def submitRoute (quiz : Quiz) (userId : Nat) : SubmitOutcome :=
  match jsFilter (submissionsProp quiz) (fun sub => sub.userId = userId) with
  | none => .typeError
  | some userSubmissions =>
    if ¬ quiz.settings.allowRetake ∧ 0 < userSubmissions.length then
      .retakeRejected
    else if quiz.settings.maxAttempts ≠ 0 ∧
        quiz.settings.maxAttempts ≤ userSubmissions.length then
      .maxAttemptsRejected
    else
      .stored

/-- `(q.options.filter isCorrect).map _id` — the correct option ids of a
choice question, as computed inside `gradeAttempt`. -/
def correctIds (question : Question) : List Nat :=
  (question.options.filter (fun opt => opt.isCorrect)).map (fun opt => opt.oid)

/-- Modelled from the spec's words, for comparison with the code: two id
lists denote the same set. -/
def sameSet (l₁ l₂ : List Nat) : Prop :=
  (∀ x ∈ l₁, x ∈ l₂) ∧ (∀ x ∈ l₂, x ∈ l₁)

instance (l₁ l₂ : List Nat) : Decidable (sameSet l₁ l₂) := by
  unfold sameSet; infer_instance

/-- Modelled from the spec's words, for comparison with the code: the
pass rate as the fraction of `submitted`-or-`auto_submitted` attempts
whose score reaches `settings.passingScore` (`none` when there are no
such attempts). -/
def specPassRate (quiz : Quiz) : Option Rat :=
  let graded := quiz.attempts.filter
    (fun a => a.status = .submitted ∨ a.status = .auto_submitted)
  if graded.length = 0 then none
  else some
    (((graded.filter (fun a => jsGe a.score quiz.settings.passingScore)).length : Rat) /
      (graded.length : Rat))

/-! Concrete fixtures used by the witnesses and counterexamples. -/

/-- A question already graded once: its analytics counters stand at 1/1. -/
def regradeQ : Question :=
  { qid := 1, type := .multiple_choice, points := 5,
    options := [⟨11, true⟩],
    analytics := { totalAttempts := 1, correctAttempts := 1 } }

/-- A quiz whose single attempt is already in status `submitted`
(it was graded once, which set the counters of `regradeQ`). -/
def regradeQuiz : Quiz :=
  { questions := [regradeQ], totalPoints := 5,
    attempts := [{ aid := 1, userId := 7, status := .submitted, score := some 100,
                   totalPointsEarned := 5,
                   answers := [{ questionId := 1, answer := .ids [11],
                                 isCorrect := some true, pointsEarned := 5 }] }] }

/-- A choice question whose two options are both flagged correct. -/
def dupQ : Question :=
  { qid := 1, type := .multiple_choice, points := 4,
    options := [⟨1, true⟩, ⟨2, true⟩] }

/-- A submission that repeats one correct option id. -/
def dupAnswer : Answer := { questionId := 1, answer := .ids [1, 1] }

/-- A duplicate-free submission of both correct ids of `dupQ`, in the
other order. -/
def dupFreeAnswer : Answer := { questionId := 1, answer := .ids [2, 1] }

/-- A quiz whose only attempt is `auto_submitted` with a passing score. -/
def autoQuiz : Quiz :=
  { settings := { passingScore := 50 },
    attempts := [{ aid := 1, userId := 1, score := some 80,
                   status := .auto_submitted }] }

/-- A quiz with two `submitted` attempts (one passing), one `abandoned`
and one `in_progress` attempt. -/
def mixedQuiz : Quiz :=
  { settings := { passingScore := 70 },
    attempts := [{ aid := 1, userId := 1, score := some 80, timeSpent := 120,
                   status := .submitted },
                 { aid := 2, userId := 2, score := some 40, timeSpent := 60,
                   status := .submitted },
                 { aid := 3, userId := 3, status := .abandoned },
                 { aid := 4, userId := 4, status := .in_progress }] }

/-- A matching question worth 5 points. -/
def matchQ : Question :=
  { qid := 1, type := .matching, points := 5,
    correctAnswers := { matching := [⟨"a", "x"⟩, ⟨"b", "y"⟩] } }

/-- A submission that reproduces the key of `matchQ` exactly. -/
def matchAnswer : Answer :=
  { questionId := 1, answer := .pairs [⟨"a", "x"⟩, ⟨"b", "y"⟩] }

/-- A single-question quiz whose attempt answers a known question and an
unknown question id 99. -/
def unknownQuiz : Quiz :=
  { questions := [{ qid := 1, type := .multiple_choice, points := 5,
                    options := [⟨11, true⟩] }],
    totalPoints := 5,
    attempts := [{ aid := 1, userId := 7,
                   answers := [{ questionId := 99, answer := .ids [11] },
                               { questionId := 1, answer := .ids [11] }] }] }

/-- A quiz like `unknownQuiz` whose attempt answers only the unknown
question id 99. -/
def unknownOnlyQuiz : Quiz :=
  { questions := [{ qid := 1, type := .multiple_choice, points := 5,
                    options := [⟨11, true⟩] }],
    totalPoints := 5,
    attempts := [{ aid := 1, userId := 7,
                   answers := [{ questionId := 99, answer := .ids [11] }] }] }

/-- The spec's two-question scenario quiz: 5-point choice questions with
correct sets `{11}` and `{21, 22}`. -/
def scenarioQuiz : Quiz :=
  { questions := [{ qid := 1, type := .multiple_choice, points := 5,
                    options := [⟨11, true⟩, ⟨12, false⟩] },
                  { qid := 2, type := .multiple_choice, points := 5,
                    options := [⟨21, true⟩, ⟨22, true⟩, ⟨23, false⟩] }],
    totalPoints := 10,
    attempts := [{ aid := 1, userId := 7,
                   answers := [{ questionId := 1, answer := .ids [11] },
                               { questionId := 2, answer := .ids [21] }] }] }

/-- A 10-point essay question. -/
def essayQ : Question := { qid := 1, type := .essay, points := 10 }

/-- A quiz with no questions and one attempt. -/
def emptyQuiz : Quiz :=
  { questions := [], totalPoints := 0,
    attempts := [{ aid := 1, userId := 7,
                   answers := [{ questionId := 1, answer := .ids [1] }] }] }

/-- A quiz whose settings allow a single attempt but whose attempt list
already holds three attempts by learner 7 (two terminal, one in
progress). -/
def overLimitQuiz : Quiz :=
  { questions := [{ qid := 1, type := .multiple_choice, points := 5,
                    options := [⟨11, true⟩] }],
    settings := { maxAttempts := 1, allowRetake := false },
    totalPoints := 5,
    attempts := [{ aid := 1, userId := 7, status := .submitted, score := some 100 },
                 { aid := 2, userId := 7, status := .submitted, score := some 0 },
                 { aid := 3, userId := 7, status := .in_progress,
                   answers := [{ questionId := 1, answer := .ids [11] }] }] }

/-! Theorems. -/

/-- C1: `gradeAttempt` has no guard on the attempt's status.  Invoked on
the already-graded, already-`submitted` attempt of `regradeQuiz`, it does
not reject: it returns the quiz with the question's analytics counters
incremented a second time (from 1/1 to 2/2) — the double-counting the
claim says is prevented. -/
theorem gradeAttempt_regrade_not_rejected :
    gradeAttempt regradeQuiz 1 ≠ none ∧
    (gradeAttempt regradeQuiz 1).map
        (fun q => q.questions.map
          (fun qq => (qq.analytics.totalAttempts, qq.analytics.correctAttempts))) =
      some [(2, 2)] ∧
    (gradeAttempt regradeQuiz 1).map
        (fun q => q.attempts.map (fun a => a.status)) = some [.submitted] := by
  refine ⟨?_, by decide, by decide⟩
  decide

/-- C2 counterexample: `dupAnswer` submits `[1, 1]`, whose id set `{1}`
differs from the correct set `{1, 2}` of `dupQ`, yet `gradeAttempt`'s
choice case marks it correct with full points, because it only compares
list length and membership. -/
theorem gradeAnswer_choice_duplicate_counterexample :
    gradeAnswer dupQ dupAnswer =
      some { dupAnswer with isCorrect := some true, pointsEarned := 4 } ∧
    ¬ sameSet [1, 1] (correctIds dupQ) := by
  constructor
  · decide
  · decide

/-- C3 counterexample: `autoQuiz` has exactly one attempt, which is
`auto_submitted` with score 80 ≥ passingScore 50.  The claimed fold over
`submitted`/`auto_submitted` attempts gives pass rate 1, but
`updateAnalytics` filters on status `submitted` only, skips the score
block, and leaves `passRate` at 0. -/
theorem updateAnalytics_auto_submitted_counterexample :
    (updateAnalytics autoQuiz).analytics.passRate = 0 ∧
    specPassRate autoQuiz = some 1 ∧
    (updateAnalytics autoQuiz).analytics.totalAttempts = 0 := by
  refine ⟨by decide, by decide, by decide⟩

/-- C5 counterexample: the submission of `matchAnswer` is exactly the
matching key of `matchQ`, but `gradeAttempt`'s switch has no
`matching`/`ordering` case: the answer passes through ungraded, with
`pointsEarned` still 0 (not the full 5 points) and `isCorrect` unset. -/
theorem gradeAnswer_matching_exact_key_counterexample :
    matchAnswer.answer = .pairs matchQ.correctAnswers.matching ∧
    gradeAnswer matchQ matchAnswer = some matchAnswer ∧
    matchAnswer.pointsEarned = 0 ∧
    matchAnswer.isCorrect = none ∧
    matchQ.points = 5 := by
  refine ⟨by decide, by decide, by decide, by decide, by decide⟩

/-- C6 counterexample: the attempt of `unknownQuiz` answers question id
99, which no question has.  Grading does not fail: the unknown answer is
silently skipped (kept verbatim, contributing nothing), and the attempt
is scored from the remaining answer alone. -/
theorem gradeAttempt_unknown_question_counterexample :
    gradeAttempt unknownQuiz 1 ≠ none ∧
    (gradeAttempt unknownQuiz 1).map
        (fun q => q.attempts.map (fun a => a.answers.head?)) =
      some [some { questionId := 99, answer := .ids [11] }] ∧
    (gradeAttempt unknownQuiz 1).map
        (fun q => q.attempts.map (fun a => (a.totalPointsEarned, a.score))) =
      some [(5, some 100)] := by
  refine ⟨by decide, by decide, by decide⟩

/-- The reduce of `pre('save')` is the sum of the question point values. -/
theorem foldl_points_eq_sum (l : List Question) (acc : Rat) :
    l.foldl (fun total question => total + question.points) acc =
      acc + (l.map (fun q => q.points)).sum := by
  induction l generalizing acc with
  | nil => simp
  | cons q rest ih => simp [ih, add_assoc]

/-- C4: after every save, `totalPoints` is the sum of `question.points`
over the question list, and any externally supplied `totalPoints` value
is overwritten: saving a quiz that differs only in `totalPoints` produces
the identical document. -/
theorem preSave_totalPoints_invariant (statusModified : Bool) (now : Nat) (quiz : Quiz) :
    (preSave statusModified now quiz).totalPoints =
      (quiz.questions.map (fun q => q.points)).sum ∧
    ∀ v : Rat, preSave statusModified now { quiz with totalPoints := v } =
      preSave statusModified now quiz := by
  constructor
  · unfold preSave
    dsimp only
    split <;> simp [foldl_points_eq_sum]
  · intro v
    rfl

/-- C5 (amended): the grading switch has no `matching`/`ordering` case:
such an answer passes through completely unchanged — `isCorrect` stays
unset and `pointsEarned` keeps its prior (default 0) value, no matter
whether the submission equals the stored key. -/
theorem gradeAnswer_matching_ordering_unhandled (question : Question) (answer : Answer)
    (htype : question.type = .matching ∨ question.type = .ordering) :
    gradeAnswer question answer = some answer := by
  rcases htype with h | h <;> simp [gradeAnswer, h]

/-- Witness for C5's amended theorem at `matchQ`/`matchAnswer`. -/
theorem gradeAnswer_matching_ordering_unhandled_witness :
    (matchQ.type = .matching ∨ matchQ.type = .ordering) ∧
    gradeAnswer matchQ matchAnswer = some matchAnswer :=
  ⟨Or.inl rfl, gradeAnswer_matching_ordering_unhandled matchQ matchAnswer (Or.inl rfl)⟩

/-- C9: for essay and code questions grading ignores the answer content
entirely: for every submitted value `v`, `pointsEarned` is the externally
supplied value (with JS `|| 0` applied), and `isCorrect` is derived as
`pointsEarned >= 0.6 * question.points`. -/
theorem gradeAnswer_essay_code_manual (question : Question) (answer : Answer)
    (htype : question.type = .essay ∨ question.type = .code) :
    ∀ v : AnswerValue,
      gradeAnswer question { answer with answer := v } =
        some { answer with
                 answer := v,
                 pointsEarned := jsOrZero answer.pointsEarned,
                 isCorrect :=
                   some (question.points * (6/10) ≤ jsOrZero answer.pointsEarned) } := by
  intro v
  rcases htype with h | h <;> simp [gradeAnswer, h]

/-- Witness for C9: a 10-point essay with externally supplied 7 points is
derived correct, with 5 points incorrect. -/
theorem gradeAnswer_essay_code_manual_witness :
    (essayQ.type = .essay ∨ essayQ.type = .code) ∧
    gradeAnswer essayQ { questionId := 1, answer := .text "anything", pointsEarned := 7 } =
      some { questionId := 1, answer := .text "anything", pointsEarned := 7,
             isCorrect := some true } ∧
    gradeAnswer essayQ { questionId := 1, answer := .text "anything", pointsEarned := 5 } =
      some { questionId := 1, answer := .text "anything", pointsEarned := 5,
             isCorrect := some false } := by
  refine ⟨Or.inl rfl, ?_, ?_⟩
  · have h := gradeAnswer_essay_code_manual essayQ
      { questionId := 1, answer := .text "anything", pointsEarned := 7 }
      (Or.inl rfl) (.text "anything")
    rw [h]
    decide
  · have h := gradeAnswer_essay_code_manual essayQ
      { questionId := 1, answer := .text "anything", pointsEarned := 5 }
      (Or.inl rfl) (.text "anything")
    rw [h]
    decide

/-- For duplicate-free lists, length equality plus one-sided membership
is the same as set equality. -/
theorem nodup_length_subset_iff_sameSet (l c : List Nat) (hl : l.Nodup) (hc : c.Nodup) :
    (l.length = c.length ∧ ∀ x ∈ l, x ∈ c) ↔ sameSet l c := by
  constructor
  · rintro ⟨hlen, hsub⟩
    have hsubf : l.toFinset ⊆ c.toFinset := by
      intro x hx
      rw [List.mem_toFinset] at hx ⊢
      exact hsub x hx
    have hcard : c.toFinset.card ≤ l.toFinset.card := by
      rw [List.toFinset_card_of_nodup hl, List.toFinset_card_of_nodup hc, hlen]
    have heq := Finset.eq_of_subset_of_card_le hsubf hcard
    constructor
    · exact hsub
    · intro x hx
      rw [← List.mem_toFinset, ← heq, List.mem_toFinset] at hx
      exact hx
  · rintro ⟨h1, h2⟩
    have heq : l.toFinset = c.toFinset := by
      apply Finset.ext
      intro x
      rw [List.mem_toFinset, List.mem_toFinset]
      exact ⟨h1 x, h2 x⟩
    refine ⟨?_, h1⟩
    rw [← List.toFinset_card_of_nodup hl, ← List.toFinset_card_of_nodup hc, heq]

/-- C2 (amended): for choice questions the computed correctness flag is
"submitted-list length equals the number of correct options, and every
submitted id is among the correct ids"; full points exactly when that
flag holds, zero otherwise.  When the submitted list is duplicate-free
(and option ids are distinct, as Mongo `_id`s are) this coincides with
set equality — but a list with duplicates can be marked correct although
its id set differs from the correct set. -/
theorem gradeAnswer_choice_membership (question : Question) (answer : Answer) (l : List Nat)
    (htype : question.type = .multiple_choice ∨ question.type = .single_choice)
    (hans : answer.answer = .ids l)
    (hopts : (question.options.map (fun o => o.oid)).Nodup) :
    ∃ c : Bool,
      gradeAnswer question answer =
        some { answer with isCorrect := some c,
                           pointsEarned := if c then question.points else 0 } ∧
      (c = true ↔
        l.length = (correctIds question).length ∧ ∀ x ∈ l, x ∈ correctIds question) ∧
      (l.Nodup → (c = true ↔ sameSet l (correctIds question))) := by
  have hcor : (correctIds question).Nodup := by
    unfold correctIds
    exact List.Nodup.sublist
      ((List.filter_sublist question.options).map (fun opt => opt.oid)) hopts
  have hmem : ((toSelected answer.answer).length = (correctIds question).length &&
      (toSelected answer.answer).all
        (fun opt => (correctIds question).any (fun c => valMatchesId opt c))) = true ↔
      l.length = (correctIds question).length ∧ ∀ x ∈ l, x ∈ correctIds question := by
    rw [hans]
    simp only [toSelected, Bool.and_eq_true, List.all_eq_true,
      List.any_eq_true, List.length_map, decide_eq_true_eq, List.mem_map]
    constructor
    · rintro ⟨h1, h2⟩
      refine ⟨h1, fun x hx => ?_⟩
      obtain ⟨y, hy, hxy⟩ := h2 (.id x) ⟨x, hx, rfl⟩
      simp only [valMatchesId, decide_eq_true_eq] at hxy
      rwa [hxy]
    · rintro ⟨h1, h2⟩
      refine ⟨h1, ?_⟩
      rintro v ⟨a, ha, rfl⟩
      exact ⟨a, h2 a ha, by simp [valMatchesId]⟩
  refine ⟨(toSelected answer.answer).length = (correctIds question).length &&
      (toSelected answer.answer).all
        (fun opt => (correctIds question).any (fun c => valMatchesId opt c)), ?_, hmem, ?_⟩
  · rcases htype with h | h <;> simp [gradeAnswer, h, correctIds]
  · intro hnd
    rw [hmem]
    exact nodup_length_subset_iff_sameSet l (correctIds question) hnd hcor

/-- Witness for C2's amended theorem: the duplicate-free submission
`[2, 1]` of both correct ids of `dupQ` is marked correct with full
points, and set equality holds. -/
theorem gradeAnswer_choice_membership_witness :
    ((dupQ.type = .multiple_choice ∨ dupQ.type = .single_choice) ∧
      dupFreeAnswer.answer = .ids [2, 1] ∧
      (dupQ.options.map (fun o => o.oid)).Nodup) ∧
    gradeAnswer dupQ dupFreeAnswer =
      some { dupFreeAnswer with isCorrect := some true, pointsEarned := 4 } ∧
    sameSet [2, 1] (correctIds dupQ) := by
  refine ⟨⟨Or.inl rfl, rfl, by decide⟩, ?_, by decide⟩
  obtain ⟨c, hg, hiff, hnd⟩ := gradeAnswer_choice_membership dupQ dupFreeAnswer [2, 1]
    (Or.inl rfl) rfl (by decide)
  have hc : c = true := by
    rw [hiff]
    decide
  rw [hg, hc]
  decide

/-- C3 (amended): `updateAnalytics` folds over attempts with status
exactly `'submitted'` — `auto_submitted` attempts are excluded from the
attempt count and the pass rate.  Over that population, `passRate` is the
percentage (not fraction) with `score >= settings.passingScore` (a `NaN`
or unset score compares false), and `abandonmentRate` is the percentage
of `abandoned` attempts over the whole attempt list, `in_progress`
included. -/
theorem updateAnalytics_submitted_only (quiz : Quiz)
    (hs : 0 < (quiz.attempts.filter (fun a => a.status = .submitted)).length)
    (ht : quiz.attempts ≠ []) :
    (updateAnalytics quiz).analytics.totalAttempts =
      (quiz.attempts.filter (fun a => a.status = .submitted)).length ∧
    (updateAnalytics quiz).analytics.passRate =
      (((quiz.attempts.filter (fun a => a.status = .submitted)).filter
          (fun a => jsGe a.score quiz.settings.passingScore)).length : Rat) /
        ((quiz.attempts.filter (fun a => a.status = .submitted)).length : Rat) * 100 ∧
    (updateAnalytics quiz).analytics.abandonmentRate =
      some ((((quiz.attempts.filter (fun a => a.status = .abandoned)).length : Rat) /
        (quiz.attempts.length : Rat)) * 100) := by
  have hlen : ¬ quiz.attempts.length = 0 := fun h => ht (List.length_eq_zero.mp h)
  unfold updateAnalytics
  dsimp only
  rw [if_pos hs, if_neg hlen]
  refine ⟨rfl, ?_, rfl⟩
  rw [List.filter_map (fun a : Attempt => a.score), List.length_map, List.length_map]
  simp [Function.comp]

/-- Witness for C3's amended theorem at `mixedQuiz`: two submitted
attempts (one passing) give `passRate = 50`; one abandoned of four
attempts gives `abandonmentRate = 25`. -/
theorem updateAnalytics_submitted_only_witness :
    (0 < (mixedQuiz.attempts.filter (fun a => a.status = .submitted)).length ∧
      mixedQuiz.attempts ≠ []) ∧
    (updateAnalytics mixedQuiz).analytics.totalAttempts = 2 ∧
    (updateAnalytics mixedQuiz).analytics.passRate = 50 ∧
    (updateAnalytics mixedQuiz).analytics.abandonmentRate = some 25 := by
  have h := updateAnalytics_submitted_only mixedQuiz (by decide) (by decide)
  refine ⟨⟨by decide, by decide⟩, ?_, ?_, ?_⟩
  · rw [h.1]
    decide
  · rw [h.2.1]
    decide
  · rw [h.2.2]
    decide

/-- Updating a question's analytics counters in place changes no
question id, so lookups still succeed on the same ids. -/
theorem findQuestion_updateFirst_isSome (c : Option Bool) (j i : Nat) (qs : List Question) :
    (findQuestion (updateFirst j (bumpAnalytics c) qs) i).isSome =
      (findQuestion qs i).isSome := by
  induction qs with
  | nil => rfl
  | cons q rest ih =>
    unfold updateFirst
    by_cases hj : q.qid = j
    · rw [if_pos hj]
      unfold findQuestion
      by_cases hi : q.qid = i
      · rw [List.find?_cons_of_pos _ (by simp [bumpAnalytics, hi]),
          List.find?_cons_of_pos _ (by simp [hi])]
        rfl
      · rw [List.find?_cons_of_neg _ (by simp [bumpAnalytics, hi]),
          List.find?_cons_of_neg _ (by simp [hi])]
    · rw [if_neg hj]
      unfold findQuestion
      by_cases hi : q.qid = i
      · rw [List.find?_cons_of_pos _ (by simp [hi]),
          List.find?_cons_of_pos _ (by simp [hi])]
      · rw [List.find?_cons_of_neg _ (by simp [hi]),
          List.find?_cons_of_neg _ (by simp [hi])]
        exact ih

/-- When every answer references an unknown question id, the grading
fold changes nothing: no question analytics move, the accumulator stays,
and every answer is kept verbatim. -/
theorem gradeFold_all_unknown (answers : List Answer) (qs : List Question) (acc : Rat)
    (h : ∀ a ∈ answers, findQuestion qs a.questionId = none) :
    gradeFold qs acc answers = some (qs, acc, answers) := by
  induction answers with
  | nil => rfl
  | cons a rest ih =>
    have hrest := ih (fun b hb => h b (List.mem_cons_of_mem a hb))
    simp only [gradeFold, h a (List.mem_cons_self a rest), hrest, Option.map_some']

/-- The accumulator of a successful grading fold over answers whose
question ids are all known is the sum of the graded answers'
`pointsEarned`. -/
theorem gradeFold_sum (answers : List Answer) (qs : List Question) (acc : Rat)
    (res : List Question × Rat × List Answer)
    (hknown : ∀ a ∈ answers, (findQuestion qs a.questionId).isSome = true)
    (hfold : gradeFold qs acc answers = some res) :
    res.2.1 = acc + (res.2.2.map (fun a => a.pointsEarned)).sum := by
  induction answers generalizing qs acc res with
  | nil =>
    unfold gradeFold at hfold
    cases hfold
    simp
  | cons a rest ih =>
    obtain ⟨question, hq⟩ :=
      Option.isSome_iff_exists.mp (hknown a (List.mem_cons_self a rest))
    unfold gradeFold at hfold
    rw [hq] at hfold
    dsimp only at hfold
    cases hga : gradeAnswer question a with
    | none =>
      rw [hga] at hfold
      simp at hfold
    | some a' =>
      rw [hga] at hfold
      dsimp only at hfold
      rw [Option.map_eq_some'] at hfold
      obtain ⟨r, hr, hres⟩ := hfold
      have hknown' : ∀ b ∈ rest,
          (findQuestion (updateFirst a.questionId (bumpAnalytics a'.isCorrect) qs)
            b.questionId).isSome = true := by
        intro b hb
        rw [findQuestion_updateFirst_isSome]
        exact hknown b (List.mem_cons_of_mem a hb)
      have hsum := ih _ _ _ hknown' hr
      rw [← hres]
      dsimp only
      rw [hsum]
      simp [add_assoc]

/-- Replacing the attempt that was found leaves it where `.id()` finds
it again. -/
theorem find?_replaceAttempt (i : Nat) (att' : Attempt) (l : List Attempt)
    (h : att'.aid = i) (hs : (l.find? (fun x => x.aid = i)).isSome = true) :
    (replaceAttempt i att' l).find? (fun x => x.aid = i) = some att' := by
  induction l with
  | nil => simp [List.find?] at hs
  | cons x rest ih =>
    unfold replaceAttempt
    by_cases hx : x.aid = i
    · rw [if_pos hx]
      exact List.find?_cons_of_pos _ (by simp [h])
    · rw [if_neg hx]
      rw [List.find?_cons_of_neg _ (by simp [hx])]
      apply ih
      rw [List.find?_cons_of_neg _ (by simp [hx])] at hs
      exact hs

/-- `updateAnalytics` touches only the `analytics` subdocument. -/
theorem updateAnalytics_attempts (quiz : Quiz) :
    (updateAnalytics quiz).attempts = quiz.attempts := rfl

/-- `updateAnalytics` leaves the question list unchanged. -/
theorem updateAnalytics_questions (quiz : Quiz) :
    (updateAnalytics quiz).questions = quiz.questions := rfl

/-- C8: a graded attempt's `totalPointsEarned` is the sum of
`pointsEarned` over its (graded) answers, and its stored score is
`Math.round(totalPointsEarned / quiz.totalPoints * 100)` — provided every
answer references a known question, grading raises no type error, and
`totalPoints` is non-zero. -/
theorem gradeAttempt_score_formula (quiz : Quiz) (attemptId : Nat) (attempt : Attempt)
    (res : List Question × Rat × List Answer)
    (hfind : quiz.attempts.find? (fun a => a.aid = attemptId) = some attempt)
    (hfold : gradeFold quiz.questions 0 attempt.answers = some res)
    (hknown : ∀ a ∈ attempt.answers,
      (findQuestion quiz.questions a.questionId).isSome = true)
    (htp : ¬ quiz.totalPoints = 0) :
    ∃ quiz' attempt', gradeAttempt quiz attemptId = some quiz' ∧
      quiz'.attempts.find? (fun a => a.aid = attemptId) = some attempt' ∧
      attempt'.totalPointsEarned =
        (attempt'.answers.map (fun a => a.pointsEarned)).sum ∧
      attempt'.score =
        some ((jsRound (attempt'.totalPointsEarned / quiz.totalPoints * 100) : Int) : Rat) ∧
      attempt'.status = .submitted := by
  obtain ⟨qs', tpe, as'⟩ := res
  have haid : attempt.aid = attemptId := by
    have h := List.find?_some hfind
    simpa using h
  refine ⟨updateAnalytics
      { quiz with
          questions := qs',
          attempts := replaceAttempt attemptId
            { attempt with
                answers := as', totalPointsEarned := tpe,
                score := if quiz.totalPoints = 0 then none
                  else some ((jsRound (tpe / quiz.totalPoints * 100) : Int) : Rat),
                status := .submitted } quiz.attempts },
    { attempt with
        answers := as', totalPointsEarned := tpe,
        score := if quiz.totalPoints = 0 then none
          else some ((jsRound (tpe / quiz.totalPoints * 100) : Int) : Rat),
        status := .submitted }, ?_, ?_, ?_, ?_, rfl⟩
  · unfold gradeAttempt
    rw [hfind]
    dsimp only
    rw [hfold]
  · rw [updateAnalytics_attempts]
    apply find?_replaceAttempt
    · exact haid
    · rw [hfind]
      rfl
  · have hsum := gradeFold_sum attempt.answers quiz.questions 0 (qs', tpe, as') hknown hfold
    dsimp only at hsum ⊢
    rw [hsum, zero_add]
  · dsimp only
    rw [if_neg htp]

/-- Witness for C8 at the spec's scenario quiz: submitted sets `{11}` and
`{21}` against correct sets `{11}` and `{21, 22}` earn 5 of 10 points and
a stored score of `round(5/10*100) = 50`. -/
theorem gradeAttempt_score_formula_witness :
    (scenarioQuiz.attempts.find? (fun a => a.aid = 1) =
        some { aid := 1, userId := 7,
               answers := [{ questionId := 1, answer := .ids [11] },
                           { questionId := 2, answer := .ids [21] }] } ∧
      ¬ scenarioQuiz.totalPoints = 0) ∧
    (∃ quiz' attempt', gradeAttempt scenarioQuiz 1 = some quiz' ∧
      quiz'.attempts.find? (fun a => a.aid = 1) = some attempt' ∧
      attempt'.totalPointsEarned =
        (attempt'.answers.map (fun a => a.pointsEarned)).sum ∧
      attempt'.score =
        some ((jsRound (attempt'.totalPointsEarned / scenarioQuiz.totalPoints * 100) : Int) : Rat) ∧
      attempt'.status = .submitted) ∧
    (gradeAttempt scenarioQuiz 1).map
        (fun q => q.attempts.map (fun a => (a.totalPointsEarned, a.score))) =
      some [(5, some 50)] := by
  refine ⟨⟨by decide, by decide⟩, ?_, by decide⟩
  refine gradeAttempt_score_formula scenarioQuiz 1
    { aid := 1, userId := 7,
      answers := [{ questionId := 1, answer := .ids [11] },
                  { questionId := 2, answer := .ids [21] }] }
    ((gradeFold scenarioQuiz.questions 0
      [{ questionId := 1, answer := .ids [11] },
       { questionId := 2, answer := .ids [21] }]).get (by decide))
    (by decide) ?_ (by decide) (by decide)
  exact (Option.some_get _).symm

/-- C6 (amended): an answer whose `questionId` matches no question does
not make grading fail — it is silently skipped: grading succeeds, the
question list (with its analytics) is untouched by such answers, the
unknown answers are kept verbatim, and they contribute nothing to
`totalPointsEarned` (stated here for an attempt all of whose answers are
unknown). -/
theorem gradeAttempt_unknown_silently_skipped (quiz : Quiz) (attemptId : Nat)
    (attempt : Attempt)
    (hfind : quiz.attempts.find? (fun a => a.aid = attemptId) = some attempt)
    (hunknown : ∀ a ∈ attempt.answers,
      findQuestion quiz.questions a.questionId = none) :
    ∃ quiz' attempt', gradeAttempt quiz attemptId = some quiz' ∧
      quiz'.questions = quiz.questions ∧
      quiz'.attempts.find? (fun a => a.aid = attemptId) = some attempt' ∧
      attempt'.answers = attempt.answers ∧
      attempt'.totalPointsEarned = 0 := by
  have haid : attempt.aid = attemptId := by
    have h := List.find?_some hfind
    simpa using h
  have hfold := gradeFold_all_unknown attempt.answers quiz.questions 0 hunknown
  refine ⟨updateAnalytics
      { quiz with
          questions := quiz.questions,
          attempts := replaceAttempt attemptId
            { attempt with
                answers := attempt.answers, totalPointsEarned := 0,
                score := if quiz.totalPoints = 0 then none
                  else some ((jsRound (0 / quiz.totalPoints * 100) : Int) : Rat),
                status := .submitted } quiz.attempts },
    { attempt with
        answers := attempt.answers, totalPointsEarned := 0,
        score := if quiz.totalPoints = 0 then none
          else some ((jsRound (0 / quiz.totalPoints * 100) : Int) : Rat),
        status := .submitted }, ?_, ?_, ?_, rfl, rfl⟩
  · unfold gradeAttempt
    rw [hfind]
    dsimp only
    rw [hfold]
  · rw [updateAnalytics_questions]
  · rw [updateAnalytics_attempts]
    apply find?_replaceAttempt
    · exact haid
    · rw [hfind]
      rfl

/-- Witness for C6's amended theorem: a quiz like `unknownQuiz` but whose
attempt answers only the unknown question id 99 grades without error,
leaving the answer untouched and earning 0 points. -/
theorem gradeAttempt_unknown_silently_skipped_witness :
    unknownOnlyQuiz.attempts.find? (fun a => a.aid = 1) =
        some { aid := 1, userId := 7,
               answers := [{ questionId := 99, answer := .ids [11] }] } ∧
    ∃ quiz' attempt',
      gradeAttempt unknownOnlyQuiz 1 = some quiz' ∧
      quiz'.questions = unknownOnlyQuiz.questions ∧
      quiz'.attempts.find? (fun a => a.aid = 1) = some attempt' ∧
      attempt'.answers = [{ questionId := 99, answer := .ids [11] }] ∧
      attempt'.totalPointsEarned = 0 := by
  refine ⟨by decide, ?_⟩
  have h := gradeAttempt_unknown_silently_skipped unknownOnlyQuiz 1
    { aid := 1, userId := 7,
      answers := [{ questionId := 99, answer := .ids [11] }] }
    (by decide) (by decide)
  exact h

/-- C10: on a quiz with an empty question list, `totalPoints` recomputes
to 0 on save, and `gradeAttempt` does not reject: it grades, divides by
the zero `totalPoints`, and stores the resulting non-finite value (JS
`NaN`, modelled `none`) as the attempt's score while still marking it
`submitted`. -/
theorem gradeAttempt_zero_totalPoints_nan (quiz : Quiz) (attemptId : Nat)
    (attempt : Attempt)
    (hq : quiz.questions = [])
    (htp : quiz.totalPoints = 0)
    (hfind : quiz.attempts.find? (fun a => a.aid = attemptId) = some attempt) :
    (∀ (sm : Bool) (now : Nat), (preSave sm now quiz).totalPoints = 0) ∧
    ∃ quiz' attempt', gradeAttempt quiz attemptId = some quiz' ∧
      quiz'.attempts.find? (fun a => a.aid = attemptId) = some attempt' ∧
      attempt'.score = none ∧
      attempt'.status = .submitted := by
  constructor
  · intro sm now
    unfold preSave
    dsimp only
    split <;> simp [hq]
  · have haid : attempt.aid = attemptId := by
      have h := List.find?_some hfind
      simpa using h
    have hunknown : ∀ a ∈ attempt.answers,
        findQuestion quiz.questions a.questionId = none := by
      intro a _
      rw [hq]
      rfl
    have hfold := gradeFold_all_unknown attempt.answers quiz.questions 0 hunknown
    refine ⟨updateAnalytics
        { quiz with
            questions := quiz.questions,
            attempts := replaceAttempt attemptId
              { attempt with
                  answers := attempt.answers, totalPointsEarned := 0,
                  score := if quiz.totalPoints = 0 then none
                    else some ((jsRound (0 / quiz.totalPoints * 100) : Int) : Rat),
                  status := .submitted } quiz.attempts },
      { attempt with
          answers := attempt.answers, totalPointsEarned := 0,
          score := if quiz.totalPoints = 0 then none
            else some ((jsRound (0 / quiz.totalPoints * 100) : Int) : Rat),
          status := .submitted }, ?_, ?_, ?_, rfl⟩
    · unfold gradeAttempt
      rw [hfind]
      dsimp only
      rw [hfold]
    · rw [updateAnalytics_attempts]
      apply find?_replaceAttempt
      · exact haid
      · rw [hfind]
        rfl
    · dsimp only
      rw [if_pos htp]

/-- Witness for C10 at `emptyQuiz`. -/
theorem gradeAttempt_zero_totalPoints_nan_witness :
    (emptyQuiz.questions = [] ∧ emptyQuiz.totalPoints = 0 ∧
      emptyQuiz.attempts.find? (fun a => a.aid = 1) =
        some { aid := 1, userId := 7,
               answers := [{ questionId := 1, answer := .ids [1] }] }) ∧
    (∀ (sm : Bool) (now : Nat), (preSave sm now emptyQuiz).totalPoints = 0) ∧
    ∃ quiz' attempt', gradeAttempt emptyQuiz 1 = some quiz' ∧
      quiz'.attempts.find? (fun a => a.aid = 1) = some attempt' ∧
      attempt'.score = none ∧
      attempt'.status = .submitted := by
  refine ⟨⟨rfl, rfl, by decide⟩, ?_⟩
  exact gradeAttempt_zero_totalPoints_nan emptyQuiz 1
    { aid := 1, userId := 7,
      answers := [{ questionId := 1, answer := .ids [1] }] }
    rfl rfl (by decide)

/-- C7: the attempt ceiling is never enforced.  On every document of the
Quiz model, `quiz.submissions` is undefined, so the submit route throws
a `TypeError` at its very first step (`quiz.submissions.filter` at
quizzes.js line 363): no request — in particular no second attempt of a
`maxAttempts = 1` quiz — is ever rejected with the attempt-limit or
retake error, and nothing is ever stored.  Nor does any other code path
bound the attempt list: `gradeAttempt` grades the third attempt of the
`maxAttempts = 1` quiz `overLimitQuiz` without any error. -/
theorem submit_route_type_error :
    (∀ (quiz : Quiz) (userId : Nat),
      submitRoute quiz userId = .typeError ∧
      submitRoute quiz userId ≠ .maxAttemptsRejected ∧
      submitRoute quiz userId ≠ .retakeRejected ∧
      submitRoute quiz userId ≠ .stored) ∧
    overLimitQuiz.settings.maxAttempts = 1 ∧
    (overLimitQuiz.attempts.filter (fun a => a.userId = 7)).length = 3 ∧
    gradeAttempt overLimitQuiz 3 ≠ none ∧
    (gradeAttempt overLimitQuiz 3).map
        (fun q => q.attempts.map (fun a => a.status)) =
      some [.submitted, .submitted, .submitted] := by
  refine ⟨fun quiz userId => ?_, rfl, by decide, by decide, by decide⟩
  have hval : submitRoute quiz userId = .typeError := rfl
  rw [hval]
  exact ⟨rfl, by decide, by decide, by decide⟩

end AssessEngine
